import Mathlib

/-!
Verification of the conversation-state management and prompt assembly of the
career-counselling chatbot (`src/app.py`).

The program keeps two session stores: `st.session_state.messages` (the
transcript of role-tagged messages) and `st.session_state.memory` (a
`ConversationBufferMemory` of (input, output) pairs).  Each user input runs
one turn of the chat handler; a sidebar button clears both stores.  The
remote completion call is modelled by an oracle from the request body to a
response outcome, since the HTTP transport is external to the program.
-/

namespace CareerChatbot

/-- Python `s.startswith(pre)`: a prefix test on the character sequence. -/
def pyStartswith (s pre : String) : Bool :=
  pre.data.isPrefixOf s.data

/-- Python `s.strip()`: drop whitespace from both ends of the string. -/
def pyStrip (s : String) : String :=
  ⟨((s.data.dropWhile Char.isWhitespace).reverse.dropWhile Char.isWhitespace).reverse⟩

/-- A transcript entry: `{"role": ..., "content": ...}` (`src/app.py` lines 41-46). -/
structure Message where
  role : String
  content : String
deriving DecidableEq, Repr

/-- The two per-session stores: `st.session_state.messages` and the
(input, output) pairs held by `st.session_state.memory`. -/
structure SessionState where
  messages : List Message
  memory : List (String × String)
deriving DecidableEq, Repr

/-- Seed greeting installed at session start (`src/app.py` lines 40-46). -/
def init_greeting : String :=
  "Hi! I\x27m your career counselor powered by DeepSeek. I can help with education plans, career paths, or skill development. What\x27s your goal or question?"

/-- Seed message installed by the Clear Chat History button (`src/app.py` lines 131-133). -/
def clear_greeting : String :=
  "Chat history cleared! Ask me about your career or education goals."

/-- Fixed apology appended on a failed turn (`src/app.py` line 122). -/
def error_msg : String :=
  "Sorry, I couldn\x27t process your request. Try rephrasing your question or check your API key."

/-- Session-state initialization (`src/app.py` lines 40-48): one assistant
seed message, empty memory. -/
def initialState : SessionState :=
  { messages := [{ role := "assistant", content := init_greeting }], memory := [] }

/-- `prompt_template.format(chat_history=..., input=...)` (`src/app.py`
lines 51-62): the fixed triple-quoted template with its two placeholders
substituted. -/
def format_prompt (chat_history input : String) : String :=
  "\nYou are an expert career counselor specializing in education and career planning for students. Provide a concise (under 500 words), actionable, and encouraging response tailored to the student\x27s query. Include specific skills, courses, certifications, or resources (e.g., Coursera, freeCodeCamp, GitHub). If the query is vague, ask a clarifying question to provide targeted advice. Use the conversation history to maintain context and avoid repetition. Structure responses with bullet points for clarity when listing steps or resources. Ensure answers are practical and student-focused.\n\nConversation History:\n"
    ++ chat_history
    ++ "\n\nStudent\x27s Question:\n"
    ++ input
    ++ "\n\nAnswer:\n"

/-- The JSON body posted to the completion endpoint (`src/app.py` lines 79-84). -/
structure RequestBody where
  model : String
  messages : List Message
  temperature : ℚ
  max_tokens : ℕ
deriving DecidableEq, Repr

/-- The request body built inside `call_openrouter_api` (`src/app.py`
lines 68-84): fixed model, a single system message holding the formatted
prompt, fixed temperature and token cap. -/
def buildRequestBody (user_input chat_history : String) : RequestBody :=
  { model := "deepseek/deepseek-r1-0528-qwen3-8b:free"
    messages := [{ role := "system", content := format_prompt chat_history user_input }]
    temperature := 0.4
    max_tokens := 1000 }

/-- Outcome of the HTTP exchange, as seen by the surrounding `try` block:
either the parsed `choices[0].message.content` string of a well-formed
success response, or an exception (transport failure, `raise_for_status`
on a non-2xx status, or a parse failure on a malformed body) carrying its
message. -/
inductive ApiOutcome where
  | success (content : String)
  | failure (exc : String)
deriving DecidableEq, Repr

/-- `call_openrouter_api` (`src/app.py` lines 65-91): builds the request
body, performs the exchange (modelled by the `http` oracle), returns the
trimmed content on success and the string `"Error: " ++ exc` when any
exception is caught. -/
def call_openrouter_api (user_input chat_history : String)
    (http : RequestBody → ApiOutcome) : String :=
  match http (buildRequestBody user_input chat_history) with
  | ApiOutcome.success content => pyStrip content
  | ApiOutcome.failure exc => "Error: " ++ exc

/-- Rendering of `ConversationBufferMemory` into the `chat_history` text
(langchain, external to `src/`): each (input, output) pair becomes a
"Human: ... / AI: ..." block, joined by newlines. -/
def renderHistory (memory : List (String × String)) : String :=
  String.intercalate "\n" (memory.map fun p => "Human: " ++ p.1 ++ "\nAI: " ++ p.2)

/-- The chat-input handler (`src/app.py` lines 99-125): append the user
message, load the history, call the API; if the answer starts with
"Error:" the raised exception lands in the `except` branch, which appends
the fixed apology and leaves memory untouched; otherwise the answer is
appended and the (input, answer) pair saved to memory. -/
def handleUserInput (st : SessionState) (user_input : String)
    (http : RequestBody → ApiOutcome) : SessionState :=
  let messages1 := st.messages ++ [{ role := "user", content := user_input }]
  let chat_history := renderHistory st.memory
  let answer := call_openrouter_api user_input chat_history http
  if pyStartswith answer "Error:" then
    { messages := messages1 ++ [{ role := "assistant", content := error_msg }]
      memory := st.memory }
  else
    { messages := messages1 ++ [{ role := "assistant", content := answer }]
      memory := st.memory ++ [(user_input, answer)] }

/-- The Clear Chat History button handler (`src/app.py` lines 130-135):
reset the transcript to the single post-clear seed and clear the memory. -/
def clearChat (_st : SessionState) : SessionState :=
  { messages := [{ role := "assistant", content := clear_greeting }], memory := [] }

/-- The two externally triggered transitions of a session. -/
inductive Transition where
  | userInput (input : String) (http : RequestBody → ApiOutcome)
  | clear

/-- One transition applied to a session state. -/
def step (st : SessionState) (t : Transition) : SessionState :=
  match t with
  | Transition.userInput u http => handleUserInput st u http
  | Transition.clear => clearChat st

/-- A sequence of transitions applied from a state. -/
def run (st : SessionState) (ts : List Transition) : SessionState :=
  ts.foldl step st

/-- Remediation text shown when the credential is missing (`src/app.py`
lines 27-36). -/
def remediation_text : String :=
  "\n        OPENROUTER_API_KEY not found in .env file. Please follow these steps:\n        1. Go to OpenRouter (https://openrouter.ai).\n        2. Sign up or log in to get an API key.\n        3. Add it to a .env file: OPENROUTER_API_KEY=your_key\n        4. Optionally, add SITE_URL and SITE_NAME for rankings.\n        5. Restart the app.\n        "

/-- What startup reaches: either halted before any interaction (with the
remediation text shown) or running with the freshly initialized session. -/
inductive StartupResult where
  | halted (remediation : String)
  | running (st : SessionState)
deriving DecidableEq, Repr

/-- The startup credential check (`src/app.py` lines 26-48): Python
`if not openrouter_api_key` halts via `st.stop()` when the key is `None`
(absent) or empty; otherwise session state is initialized. -/
def startup (openrouter_api_key : Option String) : StartupResult :=
  match openrouter_api_key with
  | none => StartupResult.halted remediation_text
  | some k => if k = "" then StartupResult.halted remediation_text else StartupResult.running initialState

/-- A call whose exchange always succeeds and whose trimmed content does not
carry the "Error:" marker: the shape of a fully successful turn. -/
def succeedsCleanly (http : RequestBody → ApiOutcome) : Prop :=
  ∀ rb, ∃ c, http rb = ApiOutcome.success c ∧ pyStartswith (pyStrip c) "Error:" = false

lemma pyStartswith_error_marker (e : String) :
    pyStartswith ("Error: " ++ e) "Error:" = true := rfl

lemma handleUserInput_failure (st : SessionState) (u e : String)
    (http : RequestBody → ApiOutcome)
    (h : http (buildRequestBody u (renderHistory st.memory)) = ApiOutcome.failure e) :
    handleUserInput st u http =
      { messages := st.messages ++ [{ role := "user", content := u },
          { role := "assistant", content := error_msg }]
        memory := st.memory } := by
  simp [handleUserInput, call_openrouter_api, h, pyStartswith_error_marker]

lemma handleUserInput_success (st : SessionState) (u c : String)
    (http : RequestBody → ApiOutcome)
    (h : http (buildRequestBody u (renderHistory st.memory)) = ApiOutcome.success c)
    (hc : pyStartswith (pyStrip c) "Error:" = false) :
    handleUserInput st u http =
      { messages := st.messages ++ [{ role := "user", content := u },
          { role := "assistant", content := pyStrip c }]
        memory := st.memory ++ [(u, pyStrip c)] } := by
  simp [handleUserInput, call_openrouter_api, h, hc]

lemma handleUserInput_success_errorMarked (st : SessionState) (u c : String)
    (http : RequestBody → ApiOutcome)
    (h : http (buildRequestBody u (renderHistory st.memory)) = ApiOutcome.success c)
    (hc : pyStartswith (pyStrip c) "Error:" = true) :
    handleUserInput st u http =
      { messages := st.messages ++ [{ role := "user", content := u },
          { role := "assistant", content := error_msg }]
        memory := st.memory } := by
  simp [handleUserInput, call_openrouter_api, h, hc]

lemma run_cons (st : SessionState) (t : Transition) (ts : List Transition) :
    run st (t :: ts) = run (step st t) ts := rfl

lemma run_clean_growth (turns : List (String × (RequestBody → ApiOutcome))) :
    ∀ st : SessionState, (∀ p ∈ turns, succeedsCleanly p.2) →
    (run st (turns.map fun p => Transition.userInput p.1 p.2)).messages.length
        = st.messages.length + 2 * turns.length ∧
    (run st (turns.map fun p => Transition.userInput p.1 p.2)).memory.length
        = st.memory.length + turns.length := by
  induction turns with
  | nil => intro st _; exact ⟨rfl, rfl⟩
  | cons p rest ih =>
    intro st h
    obtain ⟨c, hc, hcp⟩ := h p (List.mem_cons_self p rest) (buildRequestBody p.1 (renderHistory st.memory))
    have hstep : step st (Transition.userInput p.1 p.2) =
        { messages := st.messages ++ [{ role := "user", content := p.1 },
            { role := "assistant", content := pyStrip c }]
          memory := st.memory ++ [(p.1, pyStrip c)] } :=
      handleUserInput_success st p.1 c p.2 hc hcp
    obtain ⟨ih1, ih2⟩ := ih (step st (Transition.userInput p.1 p.2))
      (fun q hq => h q (List.mem_cons_of_mem p hq))
    rw [List.map_cons, run_cons]
    refine ⟨?_, ?_⟩
    · rw [ih1, hstep]
      simp [List.length_append]
      ring
    · rw [ih2, hstep]
      simp [List.length_append]
      omega

lemma step_inv (st : SessionState) (t : Transition)
    (h : 2 * st.memory.length + 1 ≤ st.messages.length) :
    2 * (step st t).memory.length + 1 ≤ (step st t).messages.length := by
  cases t with
  | clear => simp [step, clearChat]
  | userInput u http =>
    show 2 * (handleUserInput st u http).memory.length + 1 ≤ (handleUserInput st u http).messages.length
    simp only [handleUserInput]
    split
    · simp only [List.length_append, List.length_cons, List.length_nil]
      omega
    · simp only [List.length_append, List.length_cons, List.length_nil]
      omega

lemma run_inv (ts : List Transition) : ∀ st : SessionState,
    2 * st.memory.length + 1 ≤ st.messages.length →
    2 * (run st ts).memory.length + 1 ≤ (run st ts).messages.length := by
  induction ts with
  | nil => intro st h; exact h
  | cons t ts ih => intro st h; exact ih (step st t) (step_inv st t h)

/-- C1: for every sequence of N fully successful turns from a fresh session,
the transcript has 1 + 2N messages (seed plus a user and an assistant message
per turn) and the memory buffer holds exactly N (input, output) pairs. -/
theorem C1_transcript_history_growth (turns : List (String × (RequestBody → ApiOutcome)))
    (h : ∀ p ∈ turns, succeedsCleanly p.2) :
    (run initialState (turns.map fun p => Transition.userInput p.1 p.2)).messages.length
        = 1 + 2 * turns.length ∧
    (run initialState (turns.map fun p => Transition.userInput p.1 p.2)).memory.length
        = turns.length := by
  obtain ⟨h1, h2⟩ := run_clean_growth turns initialState h
  refine ⟨?_, ?_⟩
  · rw [h1]
    simp [initialState]
  · rw [h2]
    simp [initialState]

/-- Witness for C1 at one successful turn with reply "hello". -/
theorem C1_transcript_history_growth_witness :
    (run initialState ([("q", fun _ => ApiOutcome.success "hello")].map
        fun p => Transition.userInput p.1 p.2)).messages.length = 1 + 2 * 1 ∧
    (run initialState ([("q", fun _ => ApiOutcome.success "hello")].map
        fun p => Transition.userInput p.1 p.2)).memory.length = 1 := by
  have h := C1_transcript_history_growth [("q", fun _ => ApiOutcome.success "hello")] ?_
  · simpa using h
  · intro p hp rb
    rw [List.mem_singleton] at hp
    subst hp
    exact ⟨"hello", rfl, by decide⟩

/-- C2: a turn whose completion call fails grows the transcript by exactly
two messages — the user question followed by the fixed apology, never the
raw error text — and leaves the memory buffer unchanged. -/
theorem C2_failed_turn (st : SessionState) (u e : String)
    (http : RequestBody → ApiOutcome)
    (h : http (buildRequestBody u (renderHistory st.memory)) = ApiOutcome.failure e) :
    (handleUserInput st u http).messages
        = st.messages ++ [{ role := "user", content := u },
            { role := "assistant", content := error_msg }] ∧
    (handleUserInput st u http).memory = st.memory := by
  rw [handleUserInput_failure st u e http h]
  exact ⟨rfl, rfl⟩

/-- Witness for C2: a concrete failed turn from the fresh session. -/
theorem C2_failed_turn_witness :
    (handleUserInput initialState "q" fun _ => ApiOutcome.failure "boom").messages
        = initialState.messages ++ [{ role := "user", content := "q" },
            { role := "assistant", content := error_msg }] ∧
    (handleUserInput initialState "q" fun _ => ApiOutcome.failure "boom").memory
        = initialState.memory :=
  C2_failed_turn initialState "q" "boom" (fun _ => ApiOutcome.failure "boom") rfl

/-- C3 counterexample: after one failed turn from the fresh session the
memory buffer is empty, yet the transcript is not the single seed message
(neither the startup greeting nor the post-clear variant), so the claimed
"empty iff only the seed" equivalence fails on this reachable state. -/
theorem C3_counterexample :
    ¬ ((run initialState [Transition.userInput "q" fun _ => ApiOutcome.failure "boom"]).memory = []
        ↔ ((run initialState [Transition.userInput "q" fun _ => ApiOutcome.failure "boom"]).messages
              = [{ role := "assistant", content := init_greeting }] ∨
           (run initialState [Transition.userInput "q" fun _ => ApiOutcome.failure "boom"]).messages
              = [{ role := "assistant", content := clear_greeting }])) := by
  decide

/-- C3 amended: in every reachable state, if the transcript is exactly one
seed message (startup greeting or post-clear variant) then the memory buffer
is empty; the converse direction fails after a failed turn. -/
theorem C3_seed_only_implies_empty_memory (ts : List Transition)
    (h : (run initialState ts).messages = [{ role := "assistant", content := init_greeting }] ∨
         (run initialState ts).messages = [{ role := "assistant", content := clear_greeting }]) :
    (run initialState ts).memory = [] := by
  have hinv := run_inv ts initialState (by simp [initialState])
  have hlen : (run initialState ts).messages.length = 1 := by
    rcases h with h | h <;> rw [h] <;> rfl
  rw [hlen] at hinv
  have hzero : (run initialState ts).memory.length = 0 := by omega
  exact List.length_eq_zero.mp hzero

/-- Witness for the amended C3 at the empty transition sequence. -/
theorem C3_seed_only_implies_empty_memory_witness :
    (run initialState []).memory = [] :=
  C3_seed_only_implies_empty_memory [] (Or.inl rfl)

/-- C4 counterexample: a fully successful exchange whose content is the
string "Error: boom" is classified as a failure by the caller — the apology
is appended instead of the answer and the memory buffer is not updated — so
"no successful response content is ever classified as a failure" is false. -/
theorem C4_counterexample :
    call_openrouter_api "q" (renderHistory initialState.memory)
        (fun _ => ApiOutcome.success "Error: boom") = "Error: boom" ∧
    (handleUserInput initialState "q" fun _ => ApiOutcome.success "Error: boom").messages
        = initialState.messages ++ [{ role := "user", content := "q" },
            { role := "assistant", content := error_msg }] ∧
    (handleUserInput initialState "q" fun _ => ApiOutcome.success "Error: boom").memory
        = initialState.memory := by
  refine ⟨by decide, ?_, ?_⟩ <;> decide

/-- C4 amended: every failed exchange yields the explicit marker string
"Error: " followed by the exception text, which the caller recognizes by its
prefix and never returns as answer content; a successful exchange yields the
trimmed content, accepted as an answer exactly when that trimmed content does
not itself begin with "Error:" (content that does is misclassified as a
failure, per the counterexample). -/
theorem C4_error_marker_discipline (user_input chat_history exc content : String)
    (hc : pyStartswith (pyStrip content) "Error:" = false) :
    call_openrouter_api user_input chat_history (fun _ => ApiOutcome.failure exc)
        = "Error: " ++ exc ∧
    pyStartswith (call_openrouter_api user_input chat_history
        (fun _ => ApiOutcome.failure exc)) "Error:" = true ∧
    call_openrouter_api user_input chat_history (fun _ => ApiOutcome.success content)
        = pyStrip content ∧
    pyStartswith (call_openrouter_api user_input chat_history
        (fun _ => ApiOutcome.success content)) "Error:" = false :=
  ⟨rfl, pyStartswith_error_marker exc, rfl, hc⟩

/-- Witness for the amended C4 with exception "boom" and content "fine". -/
theorem C4_error_marker_discipline_witness :
    call_openrouter_api "q" "" (fun _ => ApiOutcome.failure "boom") = "Error: boom" ∧
    pyStartswith (call_openrouter_api "q" "" fun _ => ApiOutcome.failure "boom") "Error:" = true ∧
    call_openrouter_api "q" "" (fun _ => ApiOutcome.success "fine") = pyStrip "fine" ∧
    pyStartswith (call_openrouter_api "q" "" fun _ => ApiOutcome.success "fine") "Error:" = false :=
  C4_error_marker_discipline "q" "" "boom" "fine" (by decide)

/-- C5: from any prior state, the clear action resets the transcript to the
single post-clear seed message and the memory buffer to empty, together. -/
theorem C5_clear_resets (st : SessionState) :
    clearChat st = { messages := [{ role := "assistant", content := clear_greeting }]
                     memory := [] } := rfl

/-- C6: a fresh session holds exactly one transcript message, an assistant
seed greeting, and an empty memory buffer. -/
theorem C6_fresh_session :
    initialState.messages = [{ role := "assistant", content := init_greeting }] ∧
    initialState.messages.length = 1 ∧
    initialState.messages.map Message.role = ["assistant"] ∧
    initialState.memory = [] :=
  ⟨rfl, rfl, rfl, rfl⟩

/-- C7: the request body always carries the fixed model string, a single
system message holding the formatted prompt, temperature 0.4 and max_tokens
1000; on a well-formed success response the call returns the content with
surrounding whitespace trimmed. -/
theorem C7_request_body_and_extraction (user_input chat_history content : String) :
    (buildRequestBody user_input chat_history).model
        = "deepseek/deepseek-r1-0528-qwen3-8b:free" ∧
    (buildRequestBody user_input chat_history).messages
        = [{ role := "system", content := format_prompt chat_history user_input }] ∧
    (buildRequestBody user_input chat_history).temperature = 0.4 ∧
    (buildRequestBody user_input chat_history).max_tokens = 1000 ∧
    call_openrouter_api user_input chat_history (fun _ => ApiOutcome.success content)
        = pyStrip content :=
  ⟨rfl, rfl, rfl, rfl, rfl⟩

/-- C8: prompt formatting is deterministic — equal (history, input) pairs
produce identical formatted prompts. -/
theorem C8_format_deterministic (h₁ i₁ h₂ i₂ : String) (hh : h₁ = h₂) (hi : i₁ = i₂) :
    format_prompt h₁ i₁ = format_prompt h₂ i₂ := by
  rw [hh, hi]

/-- Witness for C8 at a concrete (history, input) pair. -/
theorem C8_format_deterministic_witness :
    format_prompt "Human: hi\nAI: hello" "What skills for data science?"
        = format_prompt "Human: hi\nAI: hello" "What skills for data science?" :=
  C8_format_deterministic "Human: hi\nAI: hello" "What skills for data science?"
    "Human: hi\nAI: hello" "What skills for data science?" rfl rfl

/-- C9: an absent credential halts startup with the remediation text, before
any session state or interaction is reached (the halted result carries no
session). -/
theorem C9_missing_credential_halts :
    startup none = StartupResult.halted remediation_text := rfl

/-- C10: a fully successful completion call whose trimmed content begins
with "Error:" is treated as a failed turn — the fixed apology is appended in
place of the reply and the memory buffer is not updated. -/
theorem C10_error_prefixed_reply_treated_as_failure (st : SessionState) (u c : String)
    (http : RequestBody → ApiOutcome)
    (hok : http (buildRequestBody u (renderHistory st.memory)) = ApiOutcome.success c)
    (herr : pyStartswith (pyStrip c) "Error:" = true) :
    (handleUserInput st u http).messages
        = st.messages ++ [{ role := "user", content := u },
            { role := "assistant", content := error_msg }] ∧
    (handleUserInput st u http).memory = st.memory := by
  rw [handleUserInput_success_errorMarked st u c http hok herr]
  exact ⟨rfl, rfl⟩

/-- Witness for C10 with successful content "Error: quota exceeded". -/
theorem C10_error_prefixed_reply_treated_as_failure_witness :
    (handleUserInput initialState "q" fun _ => ApiOutcome.success "Error: quota exceeded").messages
        = initialState.messages ++ [{ role := "user", content := "q" },
            { role := "assistant", content := error_msg }] ∧
    (handleUserInput initialState "q" fun _ => ApiOutcome.success "Error: quota exceeded").memory
        = initialState.memory :=
  C10_error_prefixed_reply_treated_as_failure initialState "q" "Error: quota exceeded"
    (fun _ => ApiOutcome.success "Error: quota exceeded") rfl (by decide)

end CareerChatbot
